import Mathlib

/-!
Verification of the SendGrid client request transport layer
(`sendgrid/sendgrid.py`): the message-body builder, the persistent
connection retry loop, the persistent/non-persistent dispatch policy, and
the response classifier of `send` in its two error-reporting modes.

The embedding follows the Python-3 execution path of the source file
(`sys.version_info < (3, 0)` is false for the embedded interpreter).
-/

namespace SendGrid

/-- A value stored in the request field map: either a text field or a
multi-valued (list) field, mirroring the heterogeneous Python dict built by
`SendGridClient._build_body`. -/
inductive Value where
  | s (v : String)
  | l (v : List String)
deriving DecidableEq, Repr

/-- Python truthiness test used by the `if not values[k]: del values[k]`
loop and the `files`/`content` guards: an empty string or empty list is
falsy. -/
def Value.falsy : Value → Bool
  | .s v => v == ""
  | .l v => v.isEmpty

/-- The keys of the field map built by `_build_body`.  Each constructor
stands for one concrete string key of the Python dict (see `Key.str`);
attachment and inline-content keys carry the filename / content id. -/
inductive Key where
  | toList
  | toname
  | cc
  | bcc
  | fromField
  | fromname
  | subject
  | text
  | html
  | replyto
  | headers
  | date
  | xsmtpapi
  | api_user
  | api_key
  | files (filename : String)
  | content (id : String)
deriving DecidableEq, Repr

/-- The concrete string each `Key` constructor denotes in the source. -/
def Key.str : Key → String
  | .toList => "to[]"
  | .toname => "toname[]"
  | .cc => "cc[]"
  | .bcc => "bcc[]"
  | .fromField => "from"
  | .fromname => "fromname"
  | .subject => "subject"
  | .text => "text"
  | .html => "html"
  | .replyto => "replyto"
  | .headers => "headers"
  | .date => "date"
  | .xsmtpapi => "x-smtpapi"
  | .api_user => "api_user"
  | .api_key => "api_key"
  | .files n => "files[" ++ n ++ "]"
  | .content i => "content[" ++ i ++ "]"

/-- The message object consumed (read-only) by the client.  `json_string`
models the string returned by `message.json_string()`; `files` and
`content` model the attachment and inline-content dicts as association
lists. -/
structure Message where
  to' : List String
  to_name : List String
  cc : List String
  bcc : List String
  from_email : String
  from_name : String
  subject : String
  text : String
  html : String
  reply_to : String
  headers : String
  date : String
  json_string : String
  files : List (String × String)
  content : List (String × String)
deriving DecidableEq, Repr

/-- The dict literal of `_build_body` (source lines 67-81), in insertion
order. -/
def baseValues (m : Message) : List (Key × Value) :=
  [ (.toList, .l (if m.to'.isEmpty then [m.from_email] else m.to')),
    (.toname, .l m.to_name),
    (.cc, .l m.cc),
    (.bcc, .l m.bcc),
    (.fromField, .s m.from_email),
    (.fromname, .s m.from_name),
    (.subject, .s m.subject),
    (.text, .s m.text),
    (.html, .s m.html),
    (.replyto, .s m.reply_to),
    (.headers, .s m.headers),
    (.date, .s m.date),
    (.xsmtpapi, .s m.json_string) ]

/-- Embedding of `SendGridClient._build_body` (source lines 58-97): build the dict,
inject `api_user`/`api_key` when username+password credentials are in use
(`self.username != None`), delete every falsy entry, then append one
`files[<name>]` entry per non-empty attachment and one `content[<id>]`
entry per non-empty inline content.  `username = none` models an API-key
client (`self.username is None`), in which case `password` holds the API
key. -/
def buildBody (username : Option String) (password : String) (m : Message) :
    List (Key × Value) :=
  let values := baseValues m
  let values :=
    match username with
    | some u => values ++ [(Key.api_user, Value.s u), (Key.api_key, Value.s password)]
    | none => values
  let values := values.filter (fun kv => !kv.2.falsy)
  let values := values ++
    (m.files.filter (fun f => f.2 != "")).map (fun f => (Key.files f.1, Value.s f.2))
  values ++
    (m.content.filter (fun c => c.2 != "")).map (fun c => (Key.content c.1, Value.s c.2))

/-- The result of `_build_body` together with the state of the message object after the
call.  The only writes to the message in the source are the Python-2-only
re-encoding loop (lines 59-65), dead under the embedded Python-3 semantics
(`sys.version_info < (3, 0)` is false), so the message comes back
unchanged and the field map is computed from the inputs alone. -/
def buildBodyM (username : Option String) (password : String) (m : Message) :
    List (Key × Value) × Message :=
  (buildBody username password m, m)

/-- First-match key lookup in the field map (Python dict access on the
keys that `_build_body` keeps; the dict has no duplicate keys, so the
first match is the unique one). -/
def lookupKey (l : List (Key × Value)) (k : Key) : Option Value :=
  match l with
  | [] => none
  | kv :: rest => if kv.1 = k then some kv.2 else lookupKey rest k

instance {ε α : Type} [DecidableEq ε] [DecidableEq α] : DecidableEq (Except ε α) :=
  fun x y =>
    match x, y with
    | .ok a, .ok b =>
      if h : a = b then .isTrue (by rw [h]) else .isFalse (by simp [h])
    | .ok _, .error _ => .isFalse (by simp)
    | .error _, .ok _ => .isFalse (by simp)
    | .error e, .error f =>
      if h : e = f then .isTrue (by rw [h]) else .isFalse (by simp [h])

/-- Outcome of one request/response cycle on the persistent connection: the
simulated transport either completes with a status line (`response.status`,
`response.read()`) or raises `http.client.BadStatusLine`. -/
inductive PAttempt where
  | ok (status : Nat) (body : String)
  | badStatusLine
deriving DecidableEq, Repr

/-- The exceptions the transport layer surfaces to `_make_request` /
`send`: `urllib.error.HTTPError` (carrying `e.code` and the bytes of
`e.read()`) and `socket.timeout` (carrying its message). -/
inductive Exc where
  | httpError (code : Nat) (body : String)
  | timeoutExc (msg : String)
deriving DecidableEq, Repr

/-- The mutable connection-manager state of the client: `server` models
`self._server` (the at-most-one persistent `HTTPSConnection` handle, by
id), `nextId` numbers the next connection that would be opened, and
`closedIds` records every handle on which `.close()` has been called. -/
structure ConnState where
  server : Option Nat
  nextId : Nat
  closedIds : List Nat
deriving DecidableEq, Repr

/-- Lines 129-131: `if self._server is None: self._server =
http_client.HTTPSConnection(domain, int(self.port))` — open a fresh handle
only when none is live. -/
def ensureOpen (st : ConnState) : ConnState :=
  match st.server with
  | none => { server := some st.nextId, nextId := st.nextId + 1, closedIds := st.closedIds }
  | some _ => st

/-- Lines 139-140: `self._server.close(); self._server = None` — discard
the current handle after a `BadStatusLine`. -/
def discard (st : ConnState) : ConnState :=
  { server := none
    nextId := st.nextId
    closedIds :=
      match st.server with
      | some h => st.closedIds ++ [h]
      | none => st.closedIds }

/-- The message of the `socket.timeout` raised on line 141. -/
def timeoutMsg : String := "Unable to start persistent connection"

/-- The retry loop of `_make_persistent_request` (lines 128-141), with the
simulated transport `t` giving the outcome of the `i`-th request/response
cycle and `fuel` the remaining iterations of `for _ in
range(self._max_retry)`.  Returns the raised-or-returned outcome together
with the final connection state. -/
def persistentLoop (t : Nat → PAttempt) :
    Nat → Nat → ConnState → Except Exc (Nat × String) × ConnState
  | _, 0, st => (.error (.timeoutExc timeoutMsg), st)
  | i, fuel + 1, st =>
    let st1 := ensureOpen st
    match t i with
    | .ok status body => (.ok (status, body), st1)
    | .badStatusLine => persistentLoop t (i + 1) fuel (discard st1)

/-- The constant `self._max_retry = 3` (line 56; fixed in the constructor, not
configurable through `opts`). -/
def maxRetry : Nat := 3

/-- Embedding of `SendGridClient._make_persistent_request` restricted to its retry loop
(the body and headers are built beforehand and do not affect the loop's
control flow). -/
def makePersistentRequest (t : Nat → PAttempt) (st : ConnState) :
    Except Exc (Nat × String) × ConnState :=
  persistentLoop t 0 maxRetry st

/-- Embedding of `SendGridClient._make_request` (lines 143-149): when no proxy is
configured, try the persistent path first and catch only `socket.timeout`
(`except timeout: pass`), then fall through to one non-persistent attempt;
with a proxy, go straight to the non-persistent attempt.  `np` is the
outcome of `_make_nonpersistent_request` (which never touches
`self._server`, so the connection state passes through it unchanged). -/
def makeRequest (proxies : Bool) (t : Nat → PAttempt)
    (np : Except Exc (Nat × String)) (st : ConnState) :
    Except Exc (Nat × String) × ConnState :=
  if proxies then (np, st)
  else
    match makePersistentRequest t st with
    | (.error (.timeoutExc _), st2) => (np, st2)
    | r => r

/-- The second component of the tuple `_legacy_send` returns: the response
bytes, or the caught `socket.timeout` exception object itself (line 163
returns `408, e`). -/
inductive RespBody where
  | bytes (b : String)
  | timeoutObj (msg : String)
deriving DecidableEq, Repr

/-- Embedding of `SendGridClient._legacy_send` (lines 157-163) as a total classifier of
the outcome of `self._make_request(message)`: a normal return passes
through, `HTTPError e` becomes `(e.code, e.read())`, `timeout e` becomes
`(408, e)`.  Totality of this function is the "never raises" contract of
tuple mode. -/
def legacySend (r : Except Exc (Nat × String)) : Nat × RespBody :=
  match r with
  | .ok (status, body) => (status, .bytes body)
  | .error (.httpError code body) => (code, .bytes body)
  | .error (.timeoutExc msg) => (408, .timeoutObj msg)

/-- The possible raised failures of `_raising_send`:
`SendGridClientError`, `SendGridServerError`, and the `assert False` on
line 174 (an `AssertionError`, modelling the impossible-status branch). -/
inductive SendGridError where
  | clientError (code : Nat) (body : String)
  | serverError (code : Nat) (body : String)
  | assertionFailure
deriving DecidableEq, Repr

/-- Embedding of `SendGridClient._raising_send` (lines 165-176) as a classifier of the
outcome of `self._make_request(message)`: `HTTPError` with code in
[400,500) raises `SendGridClientError(e.code, e.read())`, in [500,600)
raises `SendGridServerError(e.code, e.read())`, any other code hits
`assert False`; a `socket.timeout` raises `SendGridClientError(408,
'Request timeout')`. -/
def raisingSend (r : Except Exc (Nat × String)) :
    Except SendGridError (Nat × String) :=
  match r with
  | .ok v => .ok v
  | .error (.httpError code body) =>
    if 400 ≤ code ∧ code < 500 then .error (.clientError code body)
    else if 500 ≤ code ∧ code < 600 then .error (.serverError code body)
    else .error .assertionFailure
  | .error (.timeoutExc _) => .error (.clientError 408 "Request timeout")

/-- Python `str.lstrip(chars)`: remove leading characters drawn from the
character SET of `chars` (not the prefix string `chars`). -/
def pyLstrip (s : String) (chars : String) : String :=
  String.mk (s.data.dropWhile (fun c => chars.data.contains c))

/-- The header dict of `_make_persistent_request` (lines 116-127), in
insertion order: User-Agent, Host, Content-Type, Connection, plus
`Authorization: Bearer <apikey>` exactly when `self.username is None`
(API-key credentials).  `domain` is computed by
`self.host.lstrip('http://').lstrip('https://')`. -/
def persistentHeaders (username : Option String)
    (password useragent host port : String) : List (String × String) :=
  let domain := pyLstrip (pyLstrip host ("http://")) ("https://")
  let headers : List (String × String) :=
    [ ("User-Agent", useragent),
      ("Host", domain ++ ":" ++ port),
      ("Content-Type", "application/x-www-form-urlencoded"),
      ("Connection", "Keep-Alive") ]
  match username with
  | none => headers ++ [("Authorization", "Bearer " ++ password)]
  | some _ => headers

/-- The headers `_make_nonpersistent_request` adds to its `Request`
(lines 106-110): User-Agent always, `Authorization: Bearer <apikey>`
exactly when `self.username is None`. -/
def nonpersistentHeaders (username : Option String)
    (password useragent : String) : List (String × String) :=
  let headers : List (String × String) := [("User-Agent", useragent)]
  match username with
  | none => headers ++ [("Authorization", "Bearer " ++ password)]
  | some _ => headers


/-- A transport whose every request/response cycle ends in a malformed
status line. -/
def allBadT : Nat → PAttempt := fun _ => PAttempt.badStatusLine

/-- A transport that yields a malformed status line on the first two
cycles (`maxRetry - 1` of them) and then a clean response. -/
def twoBadThenOkT : Nat → PAttempt
  | 0 => PAttempt.badStatusLine
  | 1 => PAttempt.badStatusLine
  | _ => PAttempt.ok 250 "queued"

/-- The connection state of a freshly constructed client:
`self._server = None` (line 55). -/
def initialConn : ConnState := ⟨none, 0, []⟩

/-- A sample message used for concrete evaluations. -/
def msgEx : Message :=
  ⟨["a@example.com"], [], [], [], "from@example.com", "", "hello",
    "", "", "", "", "", "x", [], []⟩


theorem lookupKey_eq_none {l : List (Key × Value)} {k : Key}
    (h : ∀ kv ∈ l, kv.1 ≠ k) : lookupKey l k = none := by
  induction l with
  | nil => rfl
  | cons kv rest ih =>
    simp only [lookupKey]
    rw [if_neg (h kv (List.mem_cons_self kv rest))]
    exact ih fun kv2 h2 => h kv2 (List.mem_cons_of_mem kv h2)

theorem lookupKey_append_of_none {l1 l2 : List (Key × Value)} {k : Key}
    (h : lookupKey l1 k = none) :
    lookupKey (l1 ++ l2) k = lookupKey l2 k := by
  induction l1 with
  | nil => rfl
  | cons kv rest ih =>
    simp only [lookupKey] at h ⊢
    by_cases hk : kv.1 = k
    · rw [if_pos hk] at h; exact absurd h (by simp)
    · rw [if_neg hk] at h ⊢
      exact ih h

theorem lookupKey_append_left {l1 l2 : List (Key × Value)} {k : Key} {v : Value}
    (h : lookupKey l1 k = some v) :
    lookupKey (l1 ++ l2) k = some v := by
  induction l1 with
  | nil => exact absurd h (by simp [lookupKey])
  | cons kv rest ih =>
    simp only [lookupKey] at h ⊢
    by_cases hk : kv.1 = k
    · rwa [if_pos hk] at h ⊢
    · rw [if_neg hk] at h ⊢
      exact ih h


theorem persistentLoop_all_bad (t : Nat → PAttempt) (fuel : Nat) :
    ∀ (i : Nat) (st : ConnState),
      (∀ j, j < fuel → t (i + j) = PAttempt.badStatusLine) →
      (persistentLoop t i fuel st).1 = .error (.timeoutExc timeoutMsg) := by
  induction fuel with
  | zero => intro i st _; rfl
  | succ fuel ih =>
    intro i st h
    have h0 : t i = PAttempt.badStatusLine := by simpa using h 0 (Nat.succ_pos fuel)
    simp only [persistentLoop, h0]
    exact ih (i + 1) (discard (ensureOpen st)) fun j hj => by
      have h2 := h (j + 1) (by omega)
      have e : i + (j + 1) = i + 1 + j := by omega
      rwa [e] at h2

theorem persistentLoop_first_ok (t : Nat → PAttempt) (fuel : Nat) :
    ∀ (i k : Nat) (st : ConnState) (s : Nat) (b : String),
      k < fuel →
      (∀ j, j < k → t (i + j) = PAttempt.badStatusLine) →
      t (i + k) = PAttempt.ok s b →
      (persistentLoop t i fuel st).1 = .ok (s, b) := by
  induction fuel with
  | zero => intro i k st s b hk; exact absurd hk (Nat.not_lt_zero k)
  | succ fuel ih =>
    intro i k st s b hk hbad hok
    cases k with
    | zero =>
      have h0 : t i = PAttempt.ok s b := by simpa using hok
      simp [persistentLoop, h0]
    | succ k =>
      have h0 : t i = PAttempt.badStatusLine := by simpa using hbad 0 (Nat.succ_pos k)
      simp only [persistentLoop, h0]
      refine ih (i + 1) k (discard (ensureOpen st)) s b (by omega) ?_ ?_
      · intro j hj
        have h2 := hbad (j + 1) (by omega)
        have e : i + (j + 1) = i + 1 + j := by omega
        rwa [e] at h2
      · have e : i + (k + 1) = i + 1 + k := by omega
        rwa [e] at hok

theorem persistentLoop_congr (t t2 : Nat → PAttempt) (fuel : Nat) :
    ∀ (i : Nat) (st : ConnState),
      (∀ j, j < fuel → t (i + j) = t2 (i + j)) →
      persistentLoop t i fuel st = persistentLoop t2 i fuel st := by
  induction fuel with
  | zero => intro i st _; rfl
  | succ fuel ih =>
    intro i st h
    have h0 : t2 i = t i := by
      have := h 0 (Nat.succ_pos fuel)
      simpa using this.symm
    simp only [persistentLoop, h0]
    cases ht : t i with
    | ok s b => rfl
    | badStatusLine =>
      exact ih (i + 1) (discard (ensureOpen st)) fun j hj => by
        have h2 := h (j + 1) (by omega)
        have e : i + (j + 1) = i + 1 + j := by omega
        rwa [e] at h2

theorem persistentLoop_error_server (t : Nat → PAttempt) (fuel : Nat) :
    ∀ (i : Nat) (st : ConnState) (e : Exc),
      fuel ≠ 0 →
      (persistentLoop t i fuel st).1 = .error e →
      (persistentLoop t i fuel st).2.server = none := by
  induction fuel with
  | zero => intro i st e h; exact absurd rfl h
  | succ fuel ih =>
    intro i st e _ he
    cases ht : t i with
    | ok s b => simp [persistentLoop, ht] at he
    | badStatusLine =>
      simp only [persistentLoop, ht] at he ⊢
      cases fuel with
      | zero => simp [persistentLoop, discard]
      | succ fuel2 => exact ih (i + 1) (discard (ensureOpen st)) e (by omega) he

/-- C1 (amended): the persistent-mode loop attempts the send at most
`maxRetry = 3` times — its outcome depends only on the first `maxRetry`
transport cycles — and returns the first clean `(status, body)`
immediately; if all `maxRetry` attempts end in a malformed status line it
raises a timeout carrying the message
"Unable to start persistent connection". -/
theorem persistent_retry_policy (t : Nat → PAttempt) (st : ConnState) :
    ((∀ i, i < maxRetry → t i = PAttempt.badStatusLine) →
      (makePersistentRequest t st).1 =
        Except.error (Exc.timeoutExc ("Unable to start persistent connection"))) ∧
    (∀ k s b, k < maxRetry →
      (∀ i, i < k → t i = PAttempt.badStatusLine) →
      t k = PAttempt.ok s b →
      (makePersistentRequest t st).1 = Except.ok (s, b)) ∧
    (∀ t2 : Nat → PAttempt, (∀ i, i < maxRetry → t i = t2 i) →
      makePersistentRequest t st = makePersistentRequest t2 st) := by
  refine ⟨?_, ?_, ?_⟩
  · intro h
    exact persistentLoop_all_bad t maxRetry 0 st fun j hj => by simpa using h j hj
  · intro k s b hk hbad hok
    exact persistentLoop_first_ok t maxRetry 0 k st s b hk
      (fun j hj => by simpa using hbad j hj) (by simpa using hok)
  · intro t2 h
    exact persistentLoop_congr t t2 maxRetry 0 st fun j hj => by simpa using h j hj

/-- C1 witness: a transport with a malformed status line on exactly the
first `maxRetry - 1 = 2` cycles and a clean response on the third makes
the persistent loop return that response. -/
theorem persistent_retry_policy_witness :
    (makePersistentRequest twoBadThenOkT initialConn).1 = Except.ok (250, "queued") :=
  (persistent_retry_policy twoBadThenOkT initialConn).2.1 2 250 "queued"
    (by decide)
    (fun i hi => by interval_cases i <;> rfl)
    rfl

/-- C1 counterexample: with every attempt malformed the loop does raise a
timeout, but its message is "Unable to start persistent connection", not
the "unable to establish persistent connection" stated in the claim. -/
theorem persistent_timeout_message_cx :
    (makePersistentRequest allBadT initialConn).1 =
      Except.error (Exc.timeoutExc ("Unable to start persistent connection")) ∧
    (makePersistentRequest allBadT initialConn).1 ≠
      Except.error (Exc.timeoutExc ("unable to establish persistent connection")) :=
  ⟨rfl, by decide⟩

/-- C2: with no proxy, `_make_request` first attempts persistent mode and
returns a completed persistent exchange as is; exactly when the persistent
attempt raises a timeout it swallows it and returns the single
non-persistent outcome `np`; with a proxy it returns `np` directly on the
untouched connection state, never running the persistent path. -/
theorem dispatch_policy (t : Nat → PAttempt)
    (np : Except Exc (Nat × String)) (st : ConnState) :
    (∀ s b st2, makePersistentRequest t st = (Except.ok (s, b), st2) →
      makeRequest false t np st = (Except.ok (s, b), st2)) ∧
    (∀ msg st2,
      makePersistentRequest t st = (Except.error (Exc.timeoutExc msg), st2) →
      makeRequest false t np st = (np, st2)) ∧
    makeRequest true t np st = (np, st) := by
  refine ⟨?_, ?_, rfl⟩
  · intro s b st2 h
    simp [makeRequest, h]
  · intro msg st2 h
    simp [makeRequest, h]

/-- C2 witness: with no proxy and a persistent transport that always
fails, the non-persistent outcome is returned. -/
theorem dispatch_policy_witness :
    makeRequest false allBadT (Except.ok (200, "ok")) initialConn =
      (Except.ok (200, "ok"), ⟨none, 3, [0, 1, 2]⟩) :=
  (dispatch_policy allBadT (Except.ok (200, "ok")) initialConn).2.1
    timeoutMsg ⟨none, 3, [0, 1, 2]⟩ rfl

/-- C10: on every malformed-status-line failure the current handle is
closed and the stored handle field reset to `none` before the next
iteration (the loop steps through `discard`, which nulls the field and
records the close), and whenever the persistent loop exits with an
exception the stored handle field of the final state is `none`. -/
theorem connection_handle_invariant :
    (∀ st : ConnState, (discard st).server = none ∧
      ∀ h, st.server = some h → h ∈ (discard st).closedIds) ∧
    (∀ (t : Nat → PAttempt) (i fuel : Nat) (st : ConnState),
      t i = PAttempt.badStatusLine →
      persistentLoop t i (fuel + 1) st =
        persistentLoop t (i + 1) fuel (discard (ensureOpen st))) ∧
    (∀ (t : Nat → PAttempt) (st : ConnState) (e : Exc),
      (makePersistentRequest t st).1 = Except.error e →
      ((makePersistentRequest t st).2).server = none) := by
  refine ⟨?_, ?_, ?_⟩
  · intro st
    refine ⟨rfl, ?_⟩
    intro h hs
    simp [discard, hs]
  · intro t i fuel st ht
    simp [persistentLoop, ht]
  · intro t st e he
    exact persistentLoop_error_server t maxRetry 0 st e (by decide) he

/-- C10 witness: after the loop exhausts its retries on an always-failing
transport, the stored handle field is `none` (and the three opened handles
were all closed). -/
theorem connection_handle_invariant_witness :
    ((makePersistentRequest allBadT initialConn).2).server = none :=
  connection_handle_invariant.2.2 allBadT initialConn
    (Exc.timeoutExc timeoutMsg) rfl

/-- C3: tuple mode never raises — `legacySend` is a total function into
`(code, body)` tuples — and for every outcome of the attempt: a completed
exchange passes through verbatim, an `HTTPError` becomes
`(e.code, e.read())`, and a timeout anywhere in the attempt becomes
`(408, e)` with the timeout object itself as second component. -/
theorem legacy_send_classification (r : Except Exc (Nat × String)) :
    (∀ s b, r = Except.ok (s, b) → legacySend r = (s, RespBody.bytes b)) ∧
    (∀ c b, r = Except.error (Exc.httpError c b) →
      legacySend r = (c, RespBody.bytes b)) ∧
    (∀ m, r = Except.error (Exc.timeoutExc m) →
      legacySend r = (408, RespBody.timeoutObj m)) := by
  refine ⟨?_, ?_, ?_⟩
  · rintro s b rfl; rfl
  · rintro c b rfl; rfl
  · rintro m rfl; rfl

/-- C3 witness: a timeout raised during the attempt comes back as
`(408, timeout object)`. -/
theorem legacy_send_classification_witness :
    legacySend (Except.error (Exc.timeoutExc ("timed out"))) =
      (408, RespBody.timeoutObj ("timed out")) :=
  (legacy_send_classification
    (Except.error (Exc.timeoutExc ("timed out")))).2.2 ("timed out") rfl

/-- C4: raising mode classifies every surfaced failure exhaustively: an
`HTTPError` code in [400,500) raises `SendGridClientError(code, body)`,
in [500,600) raises `SendGridServerError(code, body)`, a timeout raises
`SendGridClientError(408, "Request timeout")`, and a code outside
[400,600) hits the `assert False` branch. -/
theorem raising_send_classification (r : Except Exc (Nat × String)) :
    (∀ c b, r = Except.error (Exc.httpError c b) → 400 ≤ c → c < 500 →
      raisingSend r = Except.error (SendGridError.clientError c b)) ∧
    (∀ c b, r = Except.error (Exc.httpError c b) → 500 ≤ c → c < 600 →
      raisingSend r = Except.error (SendGridError.serverError c b)) ∧
    (∀ m, r = Except.error (Exc.timeoutExc m) →
      raisingSend r = Except.error (SendGridError.clientError 408 "Request timeout")) ∧
    (∀ c b, r = Except.error (Exc.httpError c b) → ¬(400 ≤ c ∧ c < 600) →
      raisingSend r = Except.error SendGridError.assertionFailure) := by
  refine ⟨?_, ?_, ?_, ?_⟩
  · rintro c b rfl h1 h2
    simp only [raisingSend]
    rw [if_pos ⟨h1, h2⟩]
  · rintro c b rfl h1 h2
    simp only [raisingSend]
    rw [if_neg (by omega), if_pos ⟨h1, h2⟩]
  · rintro m rfl; rfl
  · rintro c b rfl h
    simp only [raisingSend]
    rw [if_neg (by omega), if_neg (by omega)]

/-- C4 witness: an `HTTPError` with status 403 raises
`SendGridClientError(403, body)`. -/
theorem raising_send_classification_witness :
    raisingSend (Except.error (Exc.httpError 403 "forbidden")) =
      Except.error (SendGridError.clientError 403 "forbidden") :=
  (raising_send_classification
    (Except.error (Exc.httpError 403 "forbidden"))).1 403 "forbidden"
    rfl (by decide) (by decide)

/-- C8: evaluating the persistent-header construction at host
`"https://test.com"` (scheme `https`, domain `test.com`) and port `443`:
because `lstrip` removes a character SET, the `Host` header comes out as
`est.com:443`, not the `test.com:443` the specification states (and the
`HTTPSConnection` would be opened to that same mangled domain). -/
theorem persistent_host_header_mangled :
    persistentHeaders (some ("user")) "pass" "sendgrid/v1;python"
        "https://test.com" "443" =
      [ ("User-Agent", "sendgrid/v1;python"),
        ("Host", "est.com:443"),
        ("Content-Type", "application/x-www-form-urlencoded"),
        ("Connection", "Keep-Alive") ] ∧
    ("Host", "test.com:443") ∉
      persistentHeaders (some ("user")) "pass" "sendgrid/v1;python"
        "https://test.com" "443" :=
  ⟨rfl, by decide⟩

/-- C9: building the request body is pure — the message object comes back
from `buildBodyM` unchanged in every field, and the field map is the value
of the function `buildBody` of the credentials and the message alone. -/
theorem build_body_pure (u : Option String) (p : String) (m : Message) :
    (buildBodyM u p m).2 = m ∧ (buildBodyM u p m).1 = buildBody u p m :=
  ⟨rfl, rfl⟩

theorem baseValues_key {m : Message} {kv : Key × Value} (h : kv ∈ baseValues m) :
    kv.1 = Key.toList ∨ kv.1 = Key.toname ∨ kv.1 = Key.cc ∨ kv.1 = Key.bcc ∨
    kv.1 = Key.fromField ∨ kv.1 = Key.fromname ∨ kv.1 = Key.subject ∨
    kv.1 = Key.text ∨ kv.1 = Key.html ∨ kv.1 = Key.replyto ∨
    kv.1 = Key.headers ∨ kv.1 = Key.date ∨ kv.1 = Key.xsmtpapi := by
  simp only [baseValues, List.mem_cons, List.not_mem_nil, or_false] at h
  rcases h with rfl|rfl|rfl|rfl|rfl|rfl|rfl|rfl|rfl|rfl|rfl|rfl|rfl <;> simp

/-- Inventory of the entries `buildBody` can produce: a non-falsy entry of
the dict literal, the two credential fields (username+password mode only),
or a `files[...]` / `content[...]` entry. -/
theorem mem_buildBody {u : Option String} {p : String} {m : Message}
    {kv : Key × Value} (h : kv ∈ buildBody u p m) :
    (kv ∈ baseValues m ∧ kv.2.falsy = false) ∨
    (∃ uu, u = some uu ∧ kv = (Key.api_user, Value.s uu)) ∨
    (u.isSome = true ∧ kv = (Key.api_key, Value.s p)) ∨
    (∃ n c, kv = (Key.files n, Value.s c)) ∨
    (∃ n c, kv = (Key.content n, Value.s c)) := by
  cases u with
  | none =>
    simp only [buildBody, List.mem_append, List.mem_filter, List.mem_map] at h
    rcases h with (⟨hb, hf⟩ | ⟨f, _, rfl⟩) | ⟨c, _, rfl⟩
    · exact Or.inl ⟨hb, by simpa using hf⟩
    · exact Or.inr (Or.inr (Or.inr (Or.inl ⟨f.1, f.2, rfl⟩)))
    · exact Or.inr (Or.inr (Or.inr (Or.inr ⟨c.1, c.2, rfl⟩)))
  | some uu =>
    simp only [buildBody, List.mem_append, List.mem_filter, List.mem_map] at h
    rcases h with (⟨hb, hf⟩ | ⟨f, _, rfl⟩) | ⟨c, _, rfl⟩
    · rcases hb with hb2 | hb2
      · exact Or.inl ⟨hb2, by simpa using hf⟩
      · simp only [List.mem_cons, List.not_mem_nil, or_false] at hb2
        rcases hb2 with rfl | rfl
        · exact Or.inr (Or.inl ⟨uu, rfl, rfl⟩)
        · exact Or.inr (Or.inr (Or.inl ⟨rfl, rfl⟩))
    · exact Or.inr (Or.inr (Or.inr (Or.inl ⟨f.1, f.2, rfl⟩)))
    · exact Or.inr (Or.inr (Or.inr (Or.inr ⟨c.1, c.2, rfl⟩)))

theorem lookupKey_filterBase_none {m : Message} {k : Key}
    (hk : ∀ kv ∈ baseValues m, kv.1 ≠ k) :
    lookupKey ((baseValues m).filter fun kv => !kv.2.falsy) k = none := by
  apply lookupKey_eq_none
  intro kv hkv
  exact hk kv (List.mem_filter.mp hkv).1

theorem baseValues_no_api {m : Message} {kv : Key × Value}
    (hb : kv ∈ baseValues m) : kv.1 ≠ Key.api_user ∧ kv.1 ≠ Key.api_key := by
  rcases baseValues_key hb with h|h|h|h|h|h|h|h|h|h|h|h|h <;> rw [h] <;> exact ⟨by simp, by simp⟩

/-- C5 (amended): with API-key credentials the field map never contains
`api_user` or `api_key` — the key travels in the `Authorization: Bearer`
header of both request modes instead — and with username/password
credentials whose username and password are non-empty strings the field
map contains both (an empty username or password is deleted by the
falsy-value filter, see the counterexample). -/
theorem credential_fields (u p ua host port : String) (m : Message) :
    (lookupKey (buildBody none p m) Key.api_user = none ∧
     lookupKey (buildBody none p m) Key.api_key = none ∧
     ("Authorization", "Bearer " ++ p) ∈ persistentHeaders none p ua host port ∧
     ("Authorization", "Bearer " ++ p) ∈ nonpersistentHeaders none p ua) ∧
    (u ≠ "" → p ≠ "" →
     lookupKey (buildBody (some u) p m) Key.api_user = some (Value.s u) ∧
     lookupKey (buildBody (some u) p m) Key.api_key = some (Value.s p)) := by
  constructor
  · refine ⟨?_, ?_, ?_, ?_⟩
    · apply lookupKey_eq_none
      intro kv hkv
      rcases mem_buildBody hkv with ⟨hb, _⟩ | ⟨uu, huu, rfl⟩ | ⟨hs, rfl⟩ |
        ⟨n, c, rfl⟩ | ⟨n, c, rfl⟩
      · exact (baseValues_no_api hb).1
      · exact absurd huu (by simp)
      · exact absurd hs (by simp)
      · simp
      · simp
    · apply lookupKey_eq_none
      intro kv hkv
      rcases mem_buildBody hkv with ⟨hb, _⟩ | ⟨uu, huu, rfl⟩ | ⟨hs, rfl⟩ |
        ⟨n, c, rfl⟩ | ⟨n, c, rfl⟩
      · exact (baseValues_no_api hb).2
      · exact absurd huu (by simp)
      · exact absurd hs (by simp)
      · simp
      · simp
    · simp [persistentHeaders]
    · simp [nonpersistentHeaders]
  · intro hu hp
    have hexp : buildBody (some u) p m =
        ((baseValues m).filter (fun kv => !kv.2.falsy) ++
          [(Key.api_user, Value.s u), (Key.api_key, Value.s p)]) ++
        ((m.files.filter (fun f => f.2 != "")).map
          (fun f => (Key.files f.1, Value.s f.2)) ++
         (m.content.filter (fun c => c.2 != "")).map
          (fun c => (Key.content c.1, Value.s c.2))) := by
      simp only [buildBody, List.filter_append, List.append_assoc]
      congr 2
      have hub : (u == "") = false := beq_eq_false_iff_ne.mpr hu
      have hpb : (p == "") = false := beq_eq_false_iff_ne.mpr hp
      simp [Value.falsy, List.filter, hub, hpb]
    constructor
    · rw [hexp]
      apply lookupKey_append_left
      rw [lookupKey_append_of_none (lookupKey_filterBase_none
        fun kv hb => (baseValues_no_api hb).1)]
      rfl
    · rw [hexp]
      apply lookupKey_append_left
      rw [lookupKey_append_of_none (lookupKey_filterBase_none
        fun kv hb => (baseValues_no_api hb).2)]
      simp [lookupKey]

/-- C5 witness: with an API key "sk" the map has neither credential field
and the bearer header is present; with username "u" and password "pw"
both fields are present. -/
theorem credential_fields_witness :
    (lookupKey (buildBody none ("sk") msgEx) Key.api_user = none ∧
     ("Authorization", "Bearer " ++ "sk") ∈
       nonpersistentHeaders none ("sk") ("ua")) ∧
    (lookupKey (buildBody (some ("u")) "pw" msgEx) Key.api_user =
       some (Value.s ("u")) ∧
     lookupKey (buildBody (some ("u")) "pw" msgEx) Key.api_key =
       some (Value.s ("pw"))) :=
  ⟨⟨(credential_fields ("u") ("sk") ("ua") ("h") ("443") msgEx).1.1,
    (credential_fields ("u") ("sk") ("ua") ("h") ("443") msgEx).1.2.2.2⟩,
   (credential_fields ("u") ("pw") ("ua") ("h") ("443") msgEx).2
     (by decide) (by decide)⟩

/-- C5 counterexample: a client constructed with the empty string as
username and "secret" as password is in username/password mode
(`self.username != None`), yet the built field map does not contain
`api_user` — the falsy-value filter deletes it. -/
theorem credential_fields_cx :
    lookupKey (buildBody (some ("")) "secret" msgEx) Key.api_user = none := rfl

/-- C6: every optional field among cc, bcc, toname, headers, date,
reply-to, text and html is omitted from the built field map entirely when
the corresponding message field is empty. -/
theorem optional_fields_omitted (u : Option String) (p : String) (m : Message) :
    (m.cc = [] → lookupKey (buildBody u p m) Key.cc = none) ∧
    (m.bcc = [] → lookupKey (buildBody u p m) Key.bcc = none) ∧
    (m.to_name = [] → lookupKey (buildBody u p m) Key.toname = none) ∧
    (m.headers = "" → lookupKey (buildBody u p m) Key.headers = none) ∧
    (m.date = "" → lookupKey (buildBody u p m) Key.date = none) ∧
    (m.reply_to = "" → lookupKey (buildBody u p m) Key.replyto = none) ∧
    (m.text = "" → lookupKey (buildBody u p m) Key.text = none) ∧
    (m.html = "" → lookupKey (buildBody u p m) Key.html = none) := by
  refine ⟨?_, ?_, ?_, ?_, ?_, ?_, ?_, ?_⟩ <;>
    · intro hemp
      apply lookupKey_eq_none
      intro kv hkv
      rcases mem_buildBody hkv with ⟨hb, hf⟩ | ⟨uu, _, rfl⟩ | ⟨_, rfl⟩ |
        ⟨n, c, rfl⟩ | ⟨n, c, rfl⟩
      · simp only [baseValues, List.mem_cons, List.not_mem_nil, or_false] at hb
        rcases hb with rfl|rfl|rfl|rfl|rfl|rfl|rfl|rfl|rfl|rfl|rfl|rfl|rfl <;>
          simp_all [Value.falsy]
      · simp
      · simp
      · simp
      · simp

/-- C6 witness: the sample message has empty cc, and its built field map
omits the `cc[]` key. -/
theorem optional_fields_omitted_witness :
    lookupKey (buildBody none ("sk2") msgEx) Key.cc = none :=
  (optional_fields_omitted none ("sk2") msgEx).1 rfl

/-- C7: the `to[]` entry of the built field map is always present and
equals the message's recipient list, or the one-element list
`[from_email]` when the message has no explicit recipients. -/
theorem to_field_default (u : Option String) (p : String) (m : Message) :
    lookupKey (buildBody u p m) Key.toList =
      some (Value.l (if m.to'.isEmpty then [m.from_email] else m.to')) := by
  have hne : (!(Value.l (if m.to'.isEmpty then [m.from_email] else m.to')).falsy)
      = true := by
    cases h : m.to' with
    | nil => simp [Value.falsy, h]
    | cons a l => simp [Value.falsy, h]
  have key : ∀ rest l2 : List (Key × Value),
      lookupKey ((((Key.toList,
          Value.l (if m.to'.isEmpty then [m.from_email] else m.to')) :: rest).filter
        (fun kv => !kv.2.falsy)) ++ l2) Key.toList =
      some (Value.l (if m.to'.isEmpty then [m.from_email] else m.to')) := by
    intro rest l2
    have hfc : List.filter (fun kv : Key × Value => !kv.2.falsy)
        ((Key.toList, Value.l (if m.to'.isEmpty then [m.from_email] else m.to'))
          :: rest) =
        (Key.toList, Value.l (if m.to'.isEmpty then [m.from_email] else m.to'))
          :: List.filter (fun kv => !kv.2.falsy) rest := by
      have hne' : (Value.l (if m.to' = [] then [m.from_email] else m.to')).falsy
          = false := by
        cases h : m.to' with
        | nil => simp [Value.falsy, h]
        | cons a l => simp [Value.falsy, h]
      simp [List.filter_cons, hne']
    rw [hfc, List.cons_append]
    simp [lookupKey]
  cases u with
  | none =>
    simp only [buildBody, List.append_assoc]
    exact key _ _
  | some uu =>
    simp only [buildBody, List.append_assoc, baseValues, List.cons_append]
    exact key _ _

end SendGrid
